import Mathlib

/-!
Shallow embedding of the eventPlanner backend (Node/Express + Supabase) in
Lean 4, covering the data model and operations needed by the verification
claims: report aggregation (attendance percentage, feedback statistics),
model-level validation (Event, Feedback, Registration, Admin), the auth
login/deactivation flows, the rate-limit middleware, and the feedback
update service.

JavaScript numbers are modelled as `ℚ` (the values involved are small
decimals, exactly representable), counts as `ℕ`, timestamps as `ℤ`
(milliseconds).  `x.toFixed(2)` followed by `Number(...)` is modelled as
rounding to the nearest multiple of 1/100 (ties away from zero, which for
the nonnegative values arising here coincides with Mathlib's `round`).
A JavaScript value that may be `null`/`undefined` is modelled as `Option`;
string falsiness (`!s`) is the test `s = ""`, number falsiness is `= 0`.
Database state is passed explicitly as lists of records; a service that
throws is modelled with `Except String`.
-/

namespace EventPlanner

/-- `Number(x.toFixed(2))`: round a rational to 2 decimal places. -/
def toFixed2 (q : ℚ) : ℚ := (round (q * 100) : ℤ) / 100

/-! ### Report handlers for attendance percentage

Two parallel implementations exist in the repository.

`attendancePercentage` (controller file, `src/unnamed/part_005`) destructures
`count` from the two Supabase head-count responses and computes
`totalCount === 0 ? 0 : (presentCount / totalCount) * 100`, then
`Number(percentage.toFixed(2))`. -/

/-- `attendancePercentage` (part_005): percentage from the two `count`
values returned by the head-count queries over `registrations` (all rows
for the event) and `attendance` (rows with status 'Present'). -/
def attendancePercentage (totalCount presentCount : ℕ) : ℚ :=
  toFixed2 (if totalCount = 0 then 0 else ((presentCount : ℚ) / (totalCount : ℚ)) * 100)

/-- A Supabase response to `select(col, { count: 'exact', head: true })`.
With `head : true`, supabase-js returns the row payload `data` as `null`
and the row count in the separate `count` field of the response object. -/
structure HeadCountResp where
  /-- The row payload; `none` models JavaScript `null` (always the case
  with `head : true`). -/
  data : Option (List String)
  /-- The `count` field of the response object (not a field of `data`). -/
  count : Option ℕ
  deriving Repr, DecidableEq

/-- The count-extraction chain of the `/attendance/:event_id` route
(`src/unnamed/part_020`):
`rows?.length ? rows.length : rows?.count ?? rows?.[0]?.count ?? err?.count ?? 0`
evaluated in the success path (`err` is `null`).  The handler destructured
only `data` (bound to `rows`) from the response, ignoring the response's
`count` field; rows carry no `count` property, so every `?.count` link and
`err?.count` is `undefined`. -/
def routeExtractCount (rows : Option (List String)) : ℕ :=
  match rows with
  | none => 0
  | some l => if l.length ≠ 0 then l.length else 0

/-- The `/attendance/:event_id` route handler (part_020), success path:
extract the two counts with `routeExtractCount` and compute
`Number(((total === 0) ? 0 : present/total*100).toFixed(2))`. -/
def routeAttendancePercentage (regResp attResp : HeadCountResp) : ℚ :=
  let totalCount := routeExtractCount regResp.data
  let presentCount := routeExtractCount attResp.data
  toFixed2 (if totalCount = 0 then 0 else ((presentCount : ℚ) / (totalCount : ℚ)) * 100)

/-! ### FeedbackService.getOverallFeedbackStats

`src/backend/src/services/FeedbackService.js`: fetches the `rating` column
for the selected scope and computes total, mean, a fixed `{1..5}` bucket
histogram, and the percentage of ratings ≥ 4.  The fetched rows are
modelled as the list of their ratings (integers; the JavaScript histogram
object only carries the keys 1..5, so the embedding is faithful on inputs
whose ratings lie in that range, which model-level validation guarantees). -/

/-- The statistics object built by `getOverallFeedbackStats`.  The
`rating_distribution` JavaScript object `{1:0,...,5:0}` is modelled as a
function from bucket to count. -/
structure FeedbackStats where
  total_feedback : ℕ
  average_rating : ℚ
  rating_distribution : ℤ → ℕ
  satisfaction_rate : ℚ

/-- One step of `data.forEach(f => stats.rating_distribution[f.rating]++)`. -/
def bumpDistribution (dist : ℤ → ℕ) (r : ℤ) : ℤ → ℕ :=
  fun b => if b = r then dist b + 1 else dist b

/-- `FeedbackService.getOverallFeedbackStats`, after the rows have been
fetched: `data` is the list of ratings of the selected feedback rows. -/
def getOverallFeedbackStats (data : List ℤ) : FeedbackStats :=
  let base : FeedbackStats :=
    { total_feedback := data.length
      average_rating := 0
      rating_distribution := fun _ => 0
      satisfaction_rate := 0 }
  if data.length > 0 then
    let totalRating : ℤ := data.foldl (fun sum r => sum + r) 0
    let average := toFixed2 ((totalRating : ℚ) / (data.length : ℚ))
    let dist := data.foldl bumpDistribution base.rating_distribution
    let satisfiedCount : ℕ := dist 4 + dist 5
    let satisfaction := toFixed2 (((satisfiedCount : ℚ) / (data.length : ℚ)) * 100)
    { base with
        average_rating := average
        rating_distribution := dist
        satisfaction_rate := satisfaction }
  else base

/-! ### Feedback model

The `Feedback` class (models/Feedback.js, embedded at the end of
`src/backend/src/routes/eventsRoutes.js`): constructor fields, the static
rating bounds and `validateRating`, and `create` with its validation
chain.  JavaScript numbers are `ℚ`; `Number.isInteger(r)` is `r.den = 1`.
The `typeof comments !== 'string'` check cannot fail in the typed
embedding (comments are `Option String`), so it is omitted. -/

/-- A persisted/constructed feedback record (the fields `create` sets). -/
structure FeedbackRec where
  student_id : String
  event_id : String
  rating : ℚ
  comments : Option String
  submitted_at : String
  deriving Repr, DecidableEq

namespace Feedback

/-- `static get MIN_RATING()`, which returns 1. -/
def MIN_RATING : ℚ := 1

/-- `static get MAX_RATING()`, which returns 5. -/
def MAX_RATING : ℚ :=  5

/-- `Feedback.validateRating`: `Number.isInteger(rating)` and
`MIN_RATING <= rating <= MAX_RATING`. -/
def validateRating (rating : ℚ) : Bool :=
  rating.den == 1 && decide (MIN_RATING ≤ rating) && decide (rating ≤ MAX_RATING)

/-- `Feedback.create`: requires truthy `student_id`, `event_id` and
`rating` (string falsiness is `= ""`, number falsiness is `= 0`) and a
valid rating; `submitted_at` defaults to the current ISO timestamp, passed
in as `nowIso`. -/
def create (student_id event_id : String) (rating : ℚ) (comments : Option String)
    (nowIso : String) : Except String FeedbackRec :=
  if student_id = "" then .error "Student ID is required"
  else if event_id = "" then .error "Event ID is required"
  else if rating = 0 ∨ ¬validateRating rating = true then
    .error "Rating must be an integer between 1 and 5"
  else
    .ok { student_id := student_id, event_id := event_id, rating := rating
          comments := comments, submitted_at := nowIso }

end Feedback

/-- `ValidationService.isValidRating`
(`src/backend/src/services/ValidationService.js`): `typeof rating ===
'number'` (vacuous in the typed embedding) and `1 <= rating <= 5` and
`Number.isInteger(rating)`. -/
def ValidationService.isValidRating (rating : ℚ) : Bool :=
  decide (1 ≤ rating) && decide (rating ≤ 5) && rating.den == 1

/-! ### Admin model and auth layer

`src/backend/src/models/Admin.js` (the `Admin` class and its `toJSON`),
`AuthService.loginAdmin` (in `src/backend/src/services/EventService.js`)
and the `AuthController` HTTP handlers (`src/unnamed/part_006`).
Password hashing (bcrypt) is external: the comparator is passed in as a
function.  Token generation and the last-login DB write on the success
path are external effects; the success value is modelled as the
serialized admin (`toJSON`, which the service returns alongside the
tokens). -/

/-- An `admins` row / `Admin` instance (constructor fields). -/
structure AdminRec where
  id : String
  username : String
  email : String
  password_hash : String
  role : String
  is_active : Bool
  last_login : Option String
  created_at : Option String
  updated_at : Option String
  deriving Repr, DecidableEq

/-- The plain transport object produced by `Admin.toJSON`.  A JavaScript
object key that may be absent is an `Option`; `password_hash = none`
means the key is not present in the serialized object. -/
structure AdminJSON where
  id : String
  username : String
  email : String
  role : String
  is_active : Bool
  last_login : Option String
  created_at : Option String
  updated_at : Option String
  password_hash : Option String
  deriving Repr, DecidableEq

namespace Admin

/-- `Admin.toJSON(includePassword = false)`: serialize every field except
`password_hash`, then add `password_hash` only when `includePassword` is
true. -/
def toJSON (a : AdminRec) (includePassword : Bool) : AdminJSON :=
  { id := a.id
    username := a.username
    email := a.email
    role := a.role
    is_active := a.is_active
    last_login := a.last_login
    created_at := a.created_at
    updated_at := a.updated_at
    password_hash := if includePassword then some a.password_hash else none }

end Admin

namespace AuthService

/-- `AuthService.getAdminByEmail`: the single row whose `email` matches,
or null. -/
def getAdminByEmail (db : List AdminRec) (email : String) : Option AdminRec :=
  db.find? (fun a => a.email == email)

/-- `AuthService.getAdminByUsername`: the single row whose `username`
matches, or null. -/
def getAdminByUsername (db : List AdminRec) (username : String) : Option AdminRec :=
  db.find? (fun a => a.username == username)

/-- The lookup at the top of `loginAdmin`: by email first, then by
username. -/
def findAdmin (db : List AdminRec) (identifier : String) : Option AdminRec :=
  match getAdminByEmail db identifier with
  | some a => some a
  | none => getAdminByUsername db identifier

/-- `AuthService.loginAdmin`: look the account up, reject when absent,
inactive, or when the bcrypt comparison fails; the surrounding
`try/catch` re-throws every failure wrapped as `Login failed: <cause>`. -/
def loginAdmin (db : List AdminRec) (identifier password : String)
    (comparePassword : String → String → Bool) : Except String AdminJSON :=
  let inner : Except String AdminJSON :=
    match findAdmin db identifier with
    | none => .error "Invalid credentials"
    | some admin =>
      if ¬admin.is_active then .error "Account is deactivated"
      else if ¬comparePassword password admin.password_hash then .error "Invalid credentials"
      else .ok (Admin.toJSON admin false)
  match inner with
  | .ok v => .ok v
  | .error m => .error ("Login failed: " ++ m)

/-- `AuthService.deactivateAdmin`: set `is_active = false` on the row
with the given id. -/
def deactivateAdmin (db : List AdminRec) (adminId : String) : List AdminRec :=
  db.map (fun a => if a.id == adminId then { a with is_active := false } else a)

end AuthService

namespace AuthController

/-- `AuthController.login` (part_006): 400 when a credential field is
missing, 401 with the thrown message on any login failure, 200 on
success.  The result is the HTTP status paired with the response
message. -/
def login (db : List AdminRec) (identifier password : String)
    (comparePassword : String → String → Bool) : Nat × String :=
  if identifier = "" ∨ password = "" then
    (400, "Email/username and password are required")
  else
    match AuthService.loginAdmin db identifier password comparePassword with
    | .ok _ => (200, "Login successful")
    | .error m => (401, m)

/-- `AuthController.deactivateAdmin` (part_006): 403 unless the caller's
role is `super_admin`, 400 when the target id is the caller's own id,
otherwise perform `AuthService.deactivateAdmin`.  The result is the HTTP
status paired with the resulting `admins` table. -/
def deactivateAdmin (callerRole callerId targetId : String)
    (db : List AdminRec) : Nat × List AdminRec :=
  if callerRole ≠ "super_admin" then (403, db)
  else if targetId = callerId then (400, db)
  else (200, AuthService.deactivateAdmin db targetId)

end AuthController

/-- A deactivated admin account whose stored hash matches password `pw`
under `exampleCompare`; used as a concrete counterexample input. -/
def deactivatedBob : AdminRec :=
  { id := "1", username := "bob", email := "bob@x.com", password_hash := "h1"
    role := "admin", is_active := false, last_login := none
    created_at := none, updated_at := none }

/-- A concrete stand-in for the bcrypt comparator: password `pw` matches
exactly the stored hash `h1`. -/
def exampleCompare (password hash : String) : Bool :=
  password == "pw" && hash == "h1"

/-- JavaScript `String.prototype.trim`: strip leading and trailing
whitespace (embedded structurally so that it evaluates in the kernel). -/
def jsTrim (s : String) : String :=
  ⟨(((s.data.dropWhile Char.isWhitespace).reverse.dropWhile Char.isWhitespace).reverse)⟩

/-- JavaScript `a || b` for a possibly-absent string (`undefined` and
`""` are falsy). -/
def jsOrStr (v : Option String) (dflt : String) : String :=
  match v with
  | some s => if s = "" then dflt else s
  | none => dflt

/-- JavaScript truthiness of a possibly-absent string field. -/
def jsTruthyStr (v : Option String) : Bool :=
  match v with
  | some s => s != ""
  | none => false

/-- JavaScript truthiness of a possibly-absent number field. -/
def jsTruthyNum (v : Option ℚ) : Bool :=
  match v with
  | some q => q != 0
  | none => false

/-! ### Registration model and service

The `Registration` class (models/Registration.js, embedded in
`src/backend/src/models/index.js`) and
`RegistrationService.updateRegistrationStatus`
(`src/backend/src/services/RegistrationService.js`). -/

/-- A `registrations` row / `Registration` instance. `id` is generated by
the database, so a record built by `create` has `id = none`. -/
structure RegistrationRec where
  id : Option String
  student_id : String
  event_id : String
  registration_date : String
  status : String
  deriving Repr, DecidableEq

namespace Registration

/-- `static get VALID_STATUSES()`, which returns
`['confirmed', 'cancelled', 'waitlisted']`. -/
def VALID_STATUSES : List String := ["confirmed", "cancelled", "waitlisted"]

/-- `Registration.validateStatus`: membership in `VALID_STATUSES`. -/
def validateStatus (status : String) : Bool := VALID_STATUSES.contains status

/-- `Registration.create`: requires truthy `student_id` and `event_id`;
a truthy `status` must be valid; the constructor defaults `status` to
`'confirmed'` and `registration_date` to the current ISO timestamp
(`nowIso`). -/
def create (student_id event_id : String) (status registration_date : Option String)
    (nowIso : String) : Except String RegistrationRec :=
  if student_id = "" then .error "Student ID is required"
  else if event_id = "" then .error "Event ID is required"
  else if (jsTruthyStr status && !validateStatus (status.getD "")) = true then
    .error "Status must be one of: confirmed, cancelled, waitlisted"
  else
    .ok { id := none, student_id := student_id, event_id := event_id
          registration_date := jsOrStr registration_date nowIso
          status := jsOrStr status "confirmed" }

end Registration

namespace RegistrationService

/-- `RegistrationService.updateRegistrationStatus`: reject a status not in
`Registration.VALID_STATUSES`, else update the row with the given id
(`'Registration not found'` when it does not exist); every throw is
wrapped as `Failed to update registration status: <cause>`.  The result
pairs the resulting table with the outcome. -/
def updateRegistrationStatus (db : List RegistrationRec) (registrationId status : String) :
    List RegistrationRec × Except String RegistrationRec :=
  if ¬Registration.VALID_STATUSES.contains status = true then
    (db, .error ("Failed to update registration status: Invalid status: " ++ status))
  else
    match db.find? (fun r => r.id == some registrationId) with
    | none => (db, .error "Failed to update registration status: Registration not found")
    | some r =>
      (db.map (fun x => if x.id == some registrationId then { x with status := status } else x),
       .ok { r with status := status })

end RegistrationService

/-! ### Event model

`src/backend/src/models/Event.js`: `validateDate`, `validateMaxAttendees`
and `create`.  The event date is modelled as the parsed millisecond
timestamp (`ℤ`), `none` when the field is absent/falsy; `now` is the
timestamp of `new Date()` at validation time. -/

/-- An `events` row / `Event` instance (the fields `create` checks and
stores). -/
structure EventRec where
  id : Option String
  title : String
  description : String
  date : Option ℤ
  location : String
  max_attendees : ℚ
  college_id : String
  deriving Repr, DecidableEq

/-- The raw `data` argument of `Event.create`. -/
structure EventCreateData where
  title : String
  description : String
  date : Option ℤ
  location : String
  max_attendees : ℚ
  college_id : String
  deriving Repr, DecidableEq

namespace Event

/-- `Event.validateDate`: the event date must be strictly after `now`. -/
def validateDate (date now : ℤ) : Bool := decide (date > now)

/-- `Event.validateMaxAttendees`: `Number.isInteger` and positive. -/
def validateMaxAttendees (maxAttendees : ℚ) : Bool :=
  maxAttendees.den == 1 && decide (maxAttendees > 0)

/-- The guard `!data.date || !this.validateDate(data.date)` of
`Event.create`. -/
def dateFalsyOrInvalid (date : Option ℤ) (now : ℤ) : Bool :=
  match date with
  | none => true
  | some d => !validateDate d now

/-- `Event.create`: the validation chain of the source, in order —
title ≥ 3 chars after trim, description ≥ 10, strictly-future date,
location ≥ 3, positive-integer capacity, college reference. -/
def create (data : EventCreateData) (now : ℤ) : Except String EventRec :=
  if data.title = "" ∨ (jsTrim data.title).length < 3 then
    .error "Event title must be at least 3 characters long"
  else if data.description = "" ∨ (jsTrim data.description).length < 10 then
    .error "Event description must be at least 10 characters long"
  else if dateFalsyOrInvalid data.date now = true then
    .error "Event date must be in the future"
  else if data.location = "" ∨ (jsTrim data.location).length < 3 then
    .error "Event location must be at least 3 characters long"
  else if data.max_attendees = 0 ∨ ¬validateMaxAttendees data.max_attendees = true then
    .error "Max attendees must be a positive integer"
  else if data.college_id = "" then
    .error "College ID is required"
  else
    .ok { id := none, title := data.title, description := data.description
          date := data.date, location := data.location
          max_attendees := data.max_attendees, college_id := data.college_id }

end Event

/-! ### Rate-limit middleware

`src/backend/src/middleware/rateLimitMiddleware.js`,
`RateLimitMiddleware.createLimiter`: a per-key record `{count, resetTime}`
in a shared map.  A request re-initialises the record when it is absent
or expired (`resetTime <= now`), increments the count, and is answered
429 exactly when `count > max` afterwards.  The embedding follows one
key's record through a sequence of request timestamps (the probabilistic
sweep of expired entries of other keys and the response headers do not
affect this record; the `skipSuccessfulRequests`/`skipFailedRequests`
decrement is disabled by default and not modelled). -/

/-- The per-key store entry `{count, resetTime}` (times in ms). -/
structure RLRecord where
  count : ℕ
  resetTime : ℕ
  deriving Repr, DecidableEq

/-- One request through the limiter for a key whose current store entry
is `store`: returns whether the request is rate-limited (429) and the
entry written back. -/
def createLimiterStep (windowMs maxReq : ℕ) (store : Option RLRecord) (now : ℕ) :
    Bool × RLRecord :=
  let record : RLRecord :=
    match store with
    | some r => if r.resetTime ≤ now then { count := 0, resetTime := now + windowMs } else r
    | none => { count := 0, resetTime := now + windowMs }
  let record := { record with count := record.count + 1 }
  (decide (record.count > maxReq), record)

/-- Run a sequence of requests (by timestamp) from one key through the
limiter, collecting whether each was rate-limited. -/
def runLimiter (windowMs maxReq : ℕ) : Option RLRecord → List ℕ → List Bool
  | _, [] => []
  | store, t :: ts =>
    let step := createLimiterStep windowMs maxReq store t
    step.1 :: runLimiter windowMs maxReq (some step.2) ts

/-- The store entry for the key after a sequence of requests. -/
def runLimiterState (windowMs maxReq : ℕ) : Option RLRecord → List ℕ → Option RLRecord
  | store, [] => store
  | store, t :: ts =>
    runLimiterState windowMs maxReq (some (createLimiterStep windowMs maxReq store t).2) ts

/-! ### FeedbackService.updateFeedback

`src/backend/src/services/FeedbackService.js` guards a provided rating
with `Feedback.isValidRating(updateData.rating)` — but the `Feedback`
class defines only `validateRating` (and the `MIN_RATING`/`MAX_RATING`
getters and `create`), no static `isValidRating`, so that call is a
`TypeError` in JavaScript.  The class's static rating-validator table is
modelled as a name lookup that is `none` for any name the class does not
define. -/

/-- A persisted `feedback` row (with its database id). -/
structure FeedbackRow where
  id : String
  student_id : String
  event_id : String
  rating : ℚ
  comments : Option String
  deriving Repr, DecidableEq

/-- Static rating-validator lookup on the `Feedback` class: only
`validateRating` exists; looking up any other name — in particular
`isValidRating` — yields `none` (a JavaScript `undefined`, whose call is
a `TypeError`). -/
def Feedback.lookupStatic (name : String) : Option (ℚ → Bool) :=
  if name = "validateRating" then some Feedback.validateRating else none

/-- The `updateData` payload of `updateFeedback`. -/
structure FeedbackUpdateData where
  rating : Option ℚ
  comments : Option String
  deriving Repr, DecidableEq

namespace FeedbackService

/-- The supabase `update(...).eq('id', id).select().single()` part of
`updateFeedback`, after the rating guard has been passed. -/
def performUpdate (db : List FeedbackRow) (feedbackId : String)
    (updateData : FeedbackUpdateData) : List FeedbackRow × Except String FeedbackRow :=
  match db.find? (fun f => f.id == feedbackId) with
  | none => (db, .error "Failed to update feedback: Feedback not found")
  | some f =>
    let updated :=
      { f with
          rating := match updateData.rating with | some r => r | none => f.rating
          comments := match updateData.comments with | some c => some c | none => f.comments }
    (db.map (fun x => if x.id == feedbackId then updated else x), .ok updated)

/-- `FeedbackService.updateFeedback`: when `updateData.rating` is truthy
the code calls the undefined `Feedback.isValidRating`, so the `catch`
wraps the `TypeError` and nothing is written; otherwise the update runs.
The result pairs the resulting table with the outcome. -/
def updateFeedback (db : List FeedbackRow) (feedbackId : String)
    (updateData : FeedbackUpdateData) : List FeedbackRow × Except String FeedbackRow :=
  if jsTruthyNum updateData.rating then
    match Feedback.lookupStatic "isValidRating" with
    | none => (db, .error "Failed to update feedback: Feedback.isValidRating is not a function")
    | some isValid =>
      if !isValid ((updateData.rating).getD 0) then
        (db, .error "Failed to update feedback: Invalid rating. Must be between 1 and 5")
      else performUpdate db feedbackId updateData
  else performUpdate db feedbackId updateData

end FeedbackService

end EventPlanner

namespace EventPlanner

/-- Folding addition over a list starting from `init` adds the list sum. -/
theorem foldl_add_eq (l : List ℤ) :
    ∀ init : ℤ, l.foldl (fun sum r => sum + r) init = init + l.sum := by
  induction l with
  | nil => simp
  | cons a l ih =>
    intro init
    simp only [List.foldl_cons, ih, List.sum_cons]
    ring

/-- Evaluating the histogram fold at a bucket counts the occurrences of
that bucket in the list. -/
theorem foldl_bump_apply (l : List ℤ) :
    ∀ (dist : ℤ → ℕ) (b : ℤ),
      l.foldl bumpDistribution dist b = dist b + l.count b := by
  induction l with
  | nil => simp
  | cons a l ih =>
    intro dist b
    simp only [List.foldl_cons, ih, bumpDistribution, List.count_cons]
    by_cases hba : b = a
    · subst hba
      simp
      omega
    · have hab : ¬(a = b) := fun h => hba h.symm
      simp [hba, hab]

/-- When every rating lies in `[1,5]`, the two top buckets together count
exactly the ratings that are at least 4. -/
theorem count45_eq_countP (l : List ℤ) (h : ∀ r ∈ l, 1 ≤ r ∧ r ≤ 5) :
    l.count 4 + l.count 5 = l.countP (fun r => decide (4 ≤ r)) := by
  induction l with
  | nil => simp
  | cons a l ih =>
    have ha := h a (List.mem_cons_self a l)
    have hl : ∀ r ∈ l, 1 ≤ r ∧ r ≤ 5 := fun r hr => h r (List.mem_cons_of_mem a hr)
    simp only [List.count_cons, List.countP_cons, ← ih hl]
    obtain ⟨h1, h5⟩ := ha
    interval_cases a <;> simp <;> omega

/-- C1: the controller implementation (part_005) matches the specified
formula — 10 registrations with 4 present gives 40.00 and zero
registrations gives 0 — but the route implementation (part_020), fed the
actual `head : true` responses (`data = null`, count on the response
object), extracts 0 for both counts and reports an attendance percentage
of 0 even though the response carried counts 10 and 4. -/
theorem attendance_route_drops_counts :
    attendancePercentage 10 4 = 40 ∧
    attendancePercentage 0 0 = 0 ∧
    routeAttendancePercentage ⟨none, some 10⟩ ⟨none, some 4⟩ = 0 := by
  refine ⟨?_, ?_, ?_⟩ <;>
    · simp only [attendancePercentage, routeAttendancePercentage, routeExtractCount, toFixed2,
        round_eq]
      norm_num

/-- C2: for any multiset of ratings all in `[1,5]`,
`getOverallFeedbackStats` reports the list length as total, the arithmetic
mean rounded to 2 decimals as `average_rating` (0 when empty), the exact
per-bucket occurrence counts as `rating_distribution`, and the percentage
of ratings ≥ 4 rounded to 2 decimals as `satisfaction_rate` (0 when
empty). -/
theorem overallFeedbackStats_spec (ratings : List ℤ)
    (hrange : ∀ r ∈ ratings, 1 ≤ r ∧ r ≤ 5) :
    (getOverallFeedbackStats ratings).total_feedback = ratings.length ∧
    (getOverallFeedbackStats ratings).average_rating =
      (if ratings.length = 0 then 0
       else toFixed2 ((ratings.sum : ℚ) / (ratings.length : ℚ))) ∧
    (∀ b : ℤ, (getOverallFeedbackStats ratings).rating_distribution b = ratings.count b) ∧
    (getOverallFeedbackStats ratings).satisfaction_rate =
      (if ratings.length = 0 then 0
       else toFixed2 (((ratings.countP (fun r => decide (4 ≤ r)) : ℚ) /
          (ratings.length : ℚ)) * 100)) := by
  by_cases hlen : ratings.length = 0
  · refine ⟨by simp [getOverallFeedbackStats, hlen], ?_, ?_, ?_⟩
    · simp [getOverallFeedbackStats, hlen]
    · intro b
      rcases List.eq_nil_of_length_eq_zero hlen with rfl
      simp [getOverallFeedbackStats]
    · simp [getOverallFeedbackStats, hlen]
  · have hpos : ratings.length > 0 := Nat.pos_of_ne_zero hlen
    refine ⟨by simp [getOverallFeedbackStats, hpos], ?_, ?_, ?_⟩
    · simp only [getOverallFeedbackStats, if_pos hpos, if_neg hlen]
      rw [foldl_add_eq]
      norm_num
    · intro b
      simp only [getOverallFeedbackStats, if_pos hpos]
      rw [foldl_bump_apply]
      simp
    · simp only [getOverallFeedbackStats, if_pos hpos, if_neg hlen]
      rw [foldl_bump_apply, foldl_bump_apply]
      simp only [Nat.zero_add]
      rw [count45_eq_countP ratings hrange]

/-- Witness for C2 at the concrete ratings `[5,4,3]`: average 4.00,
distribution `{1:0, 2:0, 3:1, 4:1, 5:1}` and satisfaction rate 66.67. -/
theorem overallFeedbackStats_spec_witness :
    (getOverallFeedbackStats [5, 4, 3]).total_feedback = 3 ∧
    (getOverallFeedbackStats [5, 4, 3]).average_rating = 4 ∧
    (getOverallFeedbackStats [5, 4, 3]).rating_distribution 1 = 0 ∧
    (getOverallFeedbackStats [5, 4, 3]).rating_distribution 2 = 0 ∧
    (getOverallFeedbackStats [5, 4, 3]).rating_distribution 3 = 1 ∧
    (getOverallFeedbackStats [5, 4, 3]).rating_distribution 4 = 1 ∧
    (getOverallFeedbackStats [5, 4, 3]).rating_distribution 5 = 1 ∧
    (getOverallFeedbackStats [5, 4, 3]).satisfaction_rate = 6667 / 100 := by
  have h := overallFeedbackStats_spec [5, 4, 3] (by decide)
  obtain ⟨ht, ha, hd, hs⟩ := h
  refine ⟨ht, ha.trans ?_, (hd 1).trans (by decide), (hd 2).trans (by decide),
    (hd 3).trans (by decide), (hd 4).trans (by decide), (hd 5).trans (by decide),
    hs.trans ?_⟩
  · simp only [toFixed2, round_eq]
    norm_num
  · simp only [toFixed2, round_eq]
    norm_num

/-- C3: with the other required fields present, `Feedback.create` accepts
a rating `r` exactly when `r` is integer-valued (denominator 1) and
`1 ≤ r ≤ 5`, and `ValidationService.isValidRating` decides the same
predicate. -/
theorem feedback_rating_acceptance (sid eid : String) (r : ℚ) (c : Option String)
    (nowIso : String) (hsid : sid ≠ "") (heid : eid ≠ "") :
    ((∃ rec, Feedback.create sid eid r c nowIso = Except.ok rec) ↔
      (r.den = 1 ∧ 1 ≤ r ∧ r ≤ 5)) ∧
    (ValidationService.isValidRating r = true ↔ (r.den = 1 ∧ 1 ≤ r ∧ r ≤ 5)) := by
  have hval : Feedback.validateRating r = true ↔ (r.den = 1 ∧ 1 ≤ r ∧ r ≤ 5) := by
    simp only [Feedback.validateRating, Feedback.MIN_RATING, Feedback.MAX_RATING,
      Bool.and_eq_true, decide_eq_true_eq, beq_iff_eq]
    tauto
  constructor
  · unfold Feedback.create
    rw [if_neg hsid, if_neg heid]
    by_cases hcond : r = 0 ∨ ¬Feedback.validateRating r = true
    · rw [if_pos hcond]
      constructor
      · rintro ⟨rec, hrec⟩
        exact Except.noConfusion hrec
      · intro hr
        exfalso
        rcases hcond with h0 | hv
        · rw [h0] at hr
          exact absurd hr.2.1 (by norm_num)
        · exact hv (hval.mpr hr)
    · rw [if_neg hcond]
      push_neg at hcond
      exact ⟨fun _ => hval.mp hcond.2, fun _ => ⟨_, rfl⟩⟩
  · simp only [ValidationService.isValidRating, Bool.and_eq_true, decide_eq_true_eq,
      beq_iff_eq]
    tauto

/-- Witness for C3: rating 3 is accepted while 0, 6 and 3.5 are all
rejected by `Feedback.create` (with the other fields present). -/
theorem feedback_rating_acceptance_witness :
    (∃ rec, Feedback.create "s1" "e1" 3 none "t0" = Except.ok rec) ∧
    ¬(∃ rec, Feedback.create "s1" "e1" 0 none "t0" = Except.ok rec) ∧
    ¬(∃ rec, Feedback.create "s1" "e1" 6 none "t0" = Except.ok rec) ∧
    ¬(∃ rec, Feedback.create "s1" "e1" (7 / 2) none "t0" = Except.ok rec) := by
  have hs : ("s1" : String) ≠ "" := by decide
  have he : ("e1" : String) ≠ "" := by decide
  refine ⟨?_, fun hex => ?_, fun hex => ?_, fun hex => ?_⟩
  · exact (feedback_rating_acceptance "s1" "e1" 3 none "t0" hs he).1.mpr
      ⟨by norm_num, by norm_num, by norm_num⟩
  · have := (feedback_rating_acceptance "s1" "e1" 0 none "t0" hs he).1.mp hex
    exact absurd this.2.1 (by norm_num)
  · have := (feedback_rating_acceptance "s1" "e1" 6 none "t0" hs he).1.mp hex
    exact absurd this.2.2 (by norm_num)
  · have := (feedback_rating_acceptance "s1" "e1" (7 / 2) none "t0" hs he).1.mp hex
    have hden : ((7 : ℚ) / 2).den = 2 := by norm_num
    rw [this.1] at hden
    exact absurd hden (by norm_num)

/-- C4 counterexample: a correct password against a deactivated account
is rejected with message `Login failed: Account is deactivated`, while a
failed lookup is rejected with `Login failed: Invalid credentials` — the
login response does not carry the same generic message for all three
failure causes, so the deactivation cause is revealed. -/
theorem login_message_reveals_deactivation :
    AuthController.login [deactivatedBob] "bob@x.com" "pw" exampleCompare =
      (401, "Login failed: Account is deactivated") ∧
    AuthController.login [deactivatedBob] "ghost" "pw" exampleCompare =
      (401, "Login failed: Invalid credentials") ∧
    ("Login failed: Account is deactivated" : String) ≠
      "Login failed: Invalid credentials" := by
  refine ⟨?_, ?_, by decide⟩ <;> decide

/-- C4 amended: every one of the three failure causes — lookup failure,
inactive account, failed hash comparison — makes `loginAdmin` return an
authentication failure (never a success); lookup failure and hash failure
carry the same generic `Invalid credentials` message, while an inactive
account is reported with the distinct message `Account is deactivated`
(in particular, a correct password against a deactivated account yields a
failure). -/
theorem loginAdmin_failure_modes (db : List AdminRec) (identifier password : String)
    (cmp : String → String → Bool) :
    (AuthService.findAdmin db identifier = none →
      AuthService.loginAdmin db identifier password cmp =
        Except.error "Login failed: Invalid credentials") ∧
    (∀ a, AuthService.findAdmin db identifier = some a → a.is_active = false →
      AuthService.loginAdmin db identifier password cmp =
        Except.error "Login failed: Account is deactivated") ∧
    (∀ a, AuthService.findAdmin db identifier = some a → a.is_active = true →
      cmp password a.password_hash = false →
      AuthService.loginAdmin db identifier password cmp =
        Except.error "Login failed: Invalid credentials") := by
  refine ⟨fun hnone => ?_, fun a ha hinact => ?_, fun a ha hact hcmp => ?_⟩
  · simp [AuthService.loginAdmin, hnone]
  · simp [AuthService.loginAdmin, ha, hinact]
  · simp [AuthService.loginAdmin, ha, hact, hcmp]

/-- Witness for C4 (amended): the inactive-account clause applied to the
concrete deactivated admin, and the lookup-failure clause applied to an
unknown identifier. -/
theorem loginAdmin_failure_modes_witness :
    AuthService.loginAdmin [deactivatedBob] "bob@x.com" "pw" exampleCompare =
      Except.error "Login failed: Account is deactivated" ∧
    AuthService.loginAdmin [deactivatedBob] "ghost" "pw" exampleCompare =
      Except.error "Login failed: Invalid credentials" := by
  constructor
  · exact (loginAdmin_failure_modes [deactivatedBob] "bob@x.com" "pw"
      exampleCompare).2.1 deactivatedBob (by decide) (by decide)
  · exact (loginAdmin_failure_modes [deactivatedBob] "ghost" "pw"
      exampleCompare).1 (by decide)

/-- C8: whenever the target id of an admin-deactivation request equals
the caller's own id, the handler answers with a 4xx status — 403 for a
non-super-admin caller, 400 for a super-admin — and the admins table is
left unchanged (no account's active flag is modified). -/
theorem deactivate_self_rejected (callerRole callerId targetId : String)
    (db : List AdminRec) (h : targetId = callerId) :
    400 ≤ (AuthController.deactivateAdmin callerRole callerId targetId db).1 ∧
    (AuthController.deactivateAdmin callerRole callerId targetId db).1 < 500 ∧
    (AuthController.deactivateAdmin callerRole callerId targetId db).2 = db := by
  unfold AuthController.deactivateAdmin
  by_cases hr : callerRole = "super_admin" <;> simp [hr, h]

/-- Witness for C8: a super-admin targeting their own id receives a 4xx
and the table is untouched. -/
theorem deactivate_self_rejected_witness :
    400 ≤ (AuthController.deactivateAdmin "super_admin" "a1" "a1" [deactivatedBob]).1 ∧
    (AuthController.deactivateAdmin "super_admin" "a1" "a1" [deactivatedBob]).1 < 500 ∧
    (AuthController.deactivateAdmin "super_admin" "a1" "a1" [deactivatedBob]).2 =
      [deactivatedBob] :=
  deactivate_self_rejected "super_admin" "a1" "a1" [deactivatedBob] rfl

/-- C9: the default serialization (`includePassword = false`) carries no
`password_hash` key, and two admin records that differ only in their
password hash serialize to identical transport objects. -/
theorem admin_toJSON_excludes_hash (a : AdminRec) (h : String) :
    (Admin.toJSON a false).password_hash = none ∧
    Admin.toJSON { a with password_hash := h } false = Admin.toJSON a false :=
  ⟨rfl, rfl⟩

/-- C5 counterexample: the status `pending` is not one of
`Registration.VALID_STATUSES`; `Registration.create` and
`RegistrationService.updateRegistrationStatus` both reject it with an
error. -/
theorem registration_pending_rejected :
    Registration.validateStatus "pending" = false ∧
    Registration.create "s1" "e1" (some "pending") none "t0" =
      Except.error "Status must be one of: confirmed, cancelled, waitlisted" ∧
    (RegistrationService.updateRegistrationStatus
        [⟨some "r1", "s1", "e1", "t0", "confirmed"⟩] "r1" "pending").2 =
      Except.error "Failed to update registration status: Invalid status: pending" :=
  ⟨by decide, rfl, rfl⟩

/-- C5 amended: the registration status set is exactly
`{confirmed, cancelled, waitlisted}` — `Registration.create` and
`updateRegistrationStatus` accept each of these three values and reject
any other supplied status (including `pending`) with an error, leaving
the table unchanged. -/
theorem registration_status_set (s : String) :
    (Registration.validateStatus s = true ↔
      (s = "confirmed" ∨ s = "cancelled" ∨ s = "waitlisted")) ∧
    (∀ sid eid rd nowIso, sid ≠ "" → eid ≠ "" → Registration.validateStatus s = true →
      ∃ rec, Registration.create sid eid (some s) rd nowIso = Except.ok rec ∧
        rec.status = s) ∧
    (∀ sid eid rd nowIso, sid ≠ "" → eid ≠ "" → s ≠ "" →
      Registration.validateStatus s = false →
      Registration.create sid eid (some s) rd nowIso =
        Except.error "Status must be one of: confirmed, cancelled, waitlisted") ∧
    (∀ db rid, Registration.validateStatus s = false →
      (RegistrationService.updateRegistrationStatus db rid s).2 =
        Except.error ("Failed to update registration status: Invalid status: " ++ s) ∧
      (RegistrationService.updateRegistrationStatus db rid s).1 = db) ∧
    (∀ db rid r, Registration.validateStatus s = true →
      db.find? (fun x => x.id == some rid) = some r →
      (RegistrationService.updateRegistrationStatus db rid s).2 =
        Except.ok { r with status := s }) := by
  have hiff : Registration.validateStatus s = true ↔
      (s = "confirmed" ∨ s = "cancelled" ∨ s = "waitlisted") := by
    simp [Registration.validateStatus, Registration.VALID_STATUSES]
  refine ⟨hiff, ?_, ?_, ?_, ?_⟩
  · intro sid eid rd nowIso hsid heid hval
    have hs : s ≠ "" := by
      rcases hiff.mp hval with h | h | h <;> subst h <;> decide
    have hcond : ¬(jsTruthyStr (some s) && !Registration.validateStatus
        ((some s).getD "")) = true := by
      simp [hval]
    refine ⟨⟨none, sid, eid, jsOrStr rd nowIso, jsOrStr (some s) "confirmed"⟩, ?_, ?_⟩
    · unfold Registration.create
      rw [if_neg hsid, if_neg heid, if_neg hcond]
    · simp [jsOrStr, hs]
  · intro sid eid rd nowIso hsid heid hs hval
    have hcond : (jsTruthyStr (some s) && !Registration.validateStatus
        ((some s).getD "")) = true := by
      simp [jsTruthyStr, hval, hs]
    unfold Registration.create
    rw [if_neg hsid, if_neg heid, if_pos hcond]
  · intro db rid hval
    have hcond : ¬Registration.VALID_STATUSES.contains s = true := by
      unfold Registration.validateStatus at hval
      intro h
      rw [h] at hval
      exact Bool.noConfusion hval
    constructor <;>
      · unfold RegistrationService.updateRegistrationStatus
        rw [if_pos hcond]
  · intro db rid r hval hfind
    have hcond : ¬¬Registration.VALID_STATUSES.contains s = true := by
      unfold Registration.validateStatus at hval
      exact fun hn => hn hval
    unfold RegistrationService.updateRegistrationStatus
    rw [if_neg hcond, hfind]

/-- Witness for C5 (amended): `waitlisted` is accepted by `create` and a
bogus status is rejected by `updateRegistrationStatus` with the table
unchanged. -/
theorem registration_status_set_witness :
    (∃ rec, Registration.create "s1" "e1" (some "waitlisted") none "t0" =
      Except.ok rec ∧ rec.status = "waitlisted") ∧
    (RegistrationService.updateRegistrationStatus [] "r1" "pending").2 =
      Except.error "Failed to update registration status: Invalid status: pending" := by
  constructor
  · exact (registration_status_set "waitlisted").2.1 "s1" "e1" none "t0"
      (by decide) (by decide) (by decide)
  · exact ((registration_status_set "pending").2.2.2.1 [] "r1" (by decide)).1

/-- C7: `Event.create` can only succeed when the supplied date is
strictly greater than `now`; when the date is in the past or exactly
equal to the present, creation never yields an event, and — once the
earlier title/description checks pass — it fails with the date
validation error. -/
theorem event_create_strict_future (data : EventCreateData) (now : ℤ) :
    ((∃ e, Event.create data now = Except.ok e) →
      ∃ d, data.date = some d ∧ d > now) ∧
    (∀ d, data.date = some d → d ≤ now →
      ∀ e, Event.create data now ≠ Except.ok e) ∧
    (∀ d, data.date = some d → d ≤ now →
      ¬(data.title = "" ∨ (jsTrim data.title).length < 3) →
      ¬(data.description = "" ∨ (jsTrim data.description).length < 10) →
      Event.create data now = Except.error "Event date must be in the future") := by
  have hmain : (∃ e, Event.create data now = Except.ok e) →
      ∃ d, data.date = some d ∧ d > now := by
    rintro ⟨e, he⟩
    unfold Event.create at he
    by_cases h1 : data.title = "" ∨ (jsTrim data.title).length < 3
    · rw [if_pos h1] at he
      exact Except.noConfusion he
    rw [if_neg h1] at he
    by_cases h2 : data.description = "" ∨ (jsTrim data.description).length < 10
    · rw [if_pos h2] at he
      exact Except.noConfusion he
    rw [if_neg h2] at he
    by_cases h3 : Event.dateFalsyOrInvalid data.date now = true
    · rw [if_pos h3] at he
      exact Except.noConfusion he
    cases hd : data.date with
    | none =>
      exfalso
      rw [hd] at h3
      exact h3 rfl
    | some d =>
      rw [hd] at h3
      refine ⟨d, rfl, ?_⟩
      simpa [Event.dateFalsyOrInvalid, Event.validateDate] using h3
  refine ⟨hmain, fun d hd hle e he => ?_, fun d hd hle h1 h2 => ?_⟩
  · obtain ⟨d', hd', hgt⟩ := hmain ⟨e, he⟩
    rw [hd] at hd'
    cases hd'
    exact absurd hgt (not_lt.mpr hle)
  · unfold Event.create
    rw [if_neg h1, if_neg h2, if_pos ?_]
    simp [Event.dateFalsyOrInvalid, Event.validateDate, hd, not_lt.mpr hle]

/-- Witness for C7: an otherwise valid event whose date exactly equals
the present fails with the date validation error. -/
theorem event_create_strict_future_witness :
    Event.create
      ⟨"Hackathon", "A campus hackathon event", some 100, "Main Hall", 50, "c1"⟩ 100 =
      Except.error "Event date must be in the future" :=
  (event_create_strict_future
      ⟨"Hackathon", "A campus hackathon event", some 100, "Main Hall", 50, "c1"⟩ 100).2.2
    100 rfl le_rfl (by decide) (by decide)

/-- C10: whenever the update payload carries a truthy rating (any nonzero
value, in particular every valid rating 1..5), `updateFeedback` fails
with the wrapped `TypeError` from calling the undefined
`Feedback.isValidRating`, and the stored table is returned unchanged. -/
theorem updateFeedback_truthy_rating_throws (db : List FeedbackRow) (fid : String)
    (r : ℚ) (c : Option String) (hr : r ≠ 0) :
    FeedbackService.updateFeedback db fid ⟨some r, c⟩ =
      (db, Except.error "Failed to update feedback: Feedback.isValidRating is not a function") := by
  simp [FeedbackService.updateFeedback, jsTruthyNum, hr, Feedback.lookupStatic]

/-- A request strictly before the record's reset time increments the
count without resetting, and is limited exactly when the new count
exceeds the maximum. -/
theorem createLimiterStep_within (windowMs maxReq c T t : ℕ) (ht : t < T) :
    createLimiterStep windowMs maxReq (some ⟨c, T⟩) t =
      (decide (c + 1 > maxReq), ⟨c + 1, T⟩) := by
  simp [createLimiterStep, Nat.not_le.mpr ht]

/-- Running requests that all fall strictly before the record's reset
time: the i-th (0-based) is limited exactly when `c + i + 1 > max`. -/
theorem runLimiter_within (windowMs maxReq : ℕ) (ts : List ℕ) :
    ∀ (c T : ℕ), (∀ t ∈ ts, t < T) →
      runLimiter windowMs maxReq (some ⟨c, T⟩) ts =
        (List.range ts.length).map (fun i => decide (c + i + 1 > maxReq)) := by
  induction ts with
  | nil =>
    intro c T _
    simp [runLimiter]
  | cons t ts ih =>
    intro c T h
    have ht : t < T := h t (List.mem_cons_self t ts)
    have hts : ∀ x ∈ ts, x < T := fun x hx => h x (List.mem_cons_of_mem t hx)
    simp only [runLimiter, createLimiterStep_within windowMs maxReq c T t ht]
    rw [ih (c + 1) T hts, List.length_cons, List.range_succ_eq_map, List.map_cons,
      List.map_map]
    have harith : ∀ i : ℕ, c + 1 + i + 1 = c + (i + 1) + 1 := fun i => by omega
    simp [Function.comp, Nat.succ_eq_add_one, harith]

/-- The store entry after requests all strictly before the reset time:
the count grows by the number of requests, the reset time is unchanged. -/
theorem runLimiterState_within (windowMs maxReq : ℕ) (ts : List ℕ) :
    ∀ (c T : ℕ), (∀ t ∈ ts, t < T) →
      runLimiterState windowMs maxReq (some ⟨c, T⟩) ts = some ⟨c + ts.length, T⟩ := by
  induction ts with
  | nil =>
    intro c T _
    simp [runLimiterState]
  | cons t ts ih =>
    intro c T h
    have ht : t < T := h t (List.mem_cons_self t ts)
    have hts : ∀ x ∈ ts, x < T := fun x hx => h x (List.mem_cons_of_mem t hx)
    simp only [runLimiterState, createLimiterStep_within windowMs maxReq c T t ht]
    rw [ih (c + 1) T hts]
    simp only [List.length_cons]
    congr 2
    omega

/-- Outcomes of a concatenated request sequence split at the
intermediate store state. -/
theorem runLimiter_append (windowMs maxReq : ℕ) (l1 l2 : List ℕ) :
    ∀ store, runLimiter windowMs maxReq store (l1 ++ l2) =
      runLimiter windowMs maxReq store l1 ++
        runLimiter windowMs maxReq (runLimiterState windowMs maxReq store l1) l2 := by
  induction l1 with
  | nil =>
    intro store
    simp [runLimiter, runLimiterState]
  | cons t l1 ih =>
    intro store
    simp [runLimiter, runLimiterState, ih]

/-- C6: for a fresh key with limiter maximum `maxReq ≥ 1` over
`windowMs`, a first request at `t0` followed by requests inside the
window (before `t0 + windowMs`): the i-th request (1-based) is
rate-limited exactly when `i > maxReq` — so the first `maxReq` pass and
the `(maxReq+1)`-th receives 429 — and a final request at or after
`t0 + windowMs` passes again. -/
theorem rateLimiter_window_spec (windowMs maxReq t0 tNext : ℕ) (ts : List ℕ)
    (hin : ∀ t ∈ ts, t < t0 + windowMs) (hmax : 1 ≤ maxReq)
    (hafter : t0 + windowMs ≤ tNext) :
    runLimiter windowMs maxReq none ((t0 :: ts) ++ [tNext]) =
      (List.range (ts.length + 1)).map (fun i => decide (i + 1 > maxReq)) ++ [false] := by
  have hstep0 : createLimiterStep windowMs maxReq none t0 =
      (decide (1 > maxReq), ⟨1, t0 + windowMs⟩) := by
    simp [createLimiterStep]
  have h1 : runLimiter windowMs maxReq none (t0 :: ts) =
      decide (1 > maxReq) ::
        (List.range ts.length).map (fun i => decide (1 + i + 1 > maxReq)) := by
    simp only [runLimiter, hstep0]
    rw [runLimiter_within windowMs maxReq ts 1 (t0 + windowMs) hin]
  have h2 : runLimiterState windowMs maxReq none (t0 :: ts) =
      some ⟨1 + ts.length, t0 + windowMs⟩ := by
    simp only [runLimiterState, hstep0]
    exact runLimiterState_within windowMs maxReq ts 1 (t0 + windowMs) hin
  have h3 : runLimiter windowMs maxReq (some ⟨1 + ts.length, t0 + windowMs⟩) [tNext] =
      [false] := by
    simp [runLimiter, createLimiterStep, hafter, Nat.not_lt.mpr hmax]
  rw [runLimiter_append, h1, h2, h3]
  congr 1
  rw [List.range_succ_eq_map, List.map_cons, List.map_map]
  have harith : ∀ i : ℕ, 1 + i + 1 = i + 1 + 1 := fun i => by omega
  simp [Function.comp, Nat.succ_eq_add_one, harith]

/-- Witness for C6 with max 2 and a 10 ms window: requests at 0, 1, 2
give pass, pass, 429; a request at 15 (after the window) passes again. -/
theorem rateLimiter_window_spec_witness :
    runLimiter 10 2 none ((0 :: [1, 2]) ++ [15]) = [false, false, true, false] :=
  (rateLimiter_window_spec 10 2 0 15 [1, 2] (by decide) (by decide) (by decide)).trans
    (by decide)

/-- Witness for C10: updating with the valid rating 3 still fails with
the wrapped missing-method error and leaves the (empty) table as is. -/
theorem updateFeedback_truthy_rating_throws_witness :
    FeedbackService.updateFeedback [] "f1" ⟨some 3, none⟩ =
      ([], Except.error "Failed to update feedback: Feedback.isValidRating is not a function") :=
  updateFeedback_truthy_rating_throws [] "f1" 3 none (by norm_num)

end EventPlanner
